import Mathlib

/-!
Verification of the AV-control device protocol client engine.

Bytes are modelled as `Nat` (each in `0..255` on the wire); byte strings as
`List Nat`.  ASCII text handled as Python `str` is also modelled at the level
of its character codes, so a single set of helpers (substring search,
whitespace splitting, integer parsing) serves both the binary and the ASCII
protocol families.  Fallible Python code (uncaught exceptions such as
`ValueError`, `KeyError`, `IndexError`) is modelled with `Option`: `none`
means the operation raised.
-/

/-- Character codes of a string literal, for readable byte-string constants. -/
def strBytes (s : String) : List Nat :=
  s.data.map Char.toNat

/-- ASCII whitespace, the byte set matched by a regex class `\s` and stripped
by Python `split()` / `rstrip()` for the inputs of these protocols:
space, tab, LF, VT, FF, CR. -/
def isWSByte (b : Nat) : Bool :=
  b == 32 || b == 9 || b == 10 || b == 11 || b == 12 || b == 13

/-- Does `s` start with `pat`? -/
def startsWith : List Nat → List Nat → Bool
  | [], _ => true
  | _ :: _, [] => false
  | a :: ps, b :: ss => a == b && startsWith ps ss

/-- Substring containment, Python's `pat in s` for bytes/str. -/
def hasSub (pat : List Nat) : List Nat → Bool
  | [] => startsWith pat []
  | b :: rest => startsWith pat (b :: rest) || hasSub pat rest

/-- Python `bytes.rstrip()` / `str.rstrip()`: drop trailing whitespace. -/
def pyRstrip (l : List Nat) : List Nat :=
  (l.reverse.dropWhile isWSByte).reverse

/-- Value of a nonempty all-digit sequence of character codes; `none` otherwise. -/
def digitsVal (cs : List Nat) : Option Nat :=
  match cs with
  | [] => none
  | _ =>
    if cs.all (fun c => 48 ≤ c && c ≤ 57) then
      some (cs.foldl (fun acc c => acc * 10 + (c - 48)) 0)
    else
      none

/-- Python `int()` on a str/bytes token: strip surrounding whitespace, then an
optional sign followed by digits; `none` models the `ValueError` raised on
anything else. -/
def pyInt (cs : List Nat) : Option Int :=
  let t := ((cs.dropWhile isWSByte).reverse.dropWhile isWSByte).reverse
  match t with
  | 43 :: rest => (digitsVal rest).map Int.ofNat
  | 45 :: rest => (digitsVal rest).map (fun n => -(n : Int))
  | _ => (digitsVal t).map Int.ofNat

/-- Python `str.split()` with no argument: split on runs of whitespace,
returning the (nonempty) tokens. Worker carrying the current token reversed. -/
def splitWSGo : List Nat → List Nat → List (List Nat)
  | [], acc => if acc.isEmpty then [] else [acc.reverse]
  | c :: rest, acc =>
    if isWSByte c then
      if acc.isEmpty then splitWSGo rest [] else acc.reverse :: splitWSGo rest []
    else
      splitWSGo rest (c :: acc)

/-- Python `str.split()` / `bytes.split()` with no separator argument. -/
def splitWS (s : List Nat) : List (List Nat) :=
  splitWSGo s []

/-!
## Kramer Protocol 3000 (`avctls/drivers/switcher/kramerp3000.py`)

`KramerP3000.Error` holds the byte regexes `ERR\s*001` (syntax),
`ERR\s*002` (command unavailable), `ERR\s*003` (parameter out of range).
`__try_cmd` sends a command, reads the response, and classifies it by
`re.search` against those regexes, in the order 002, 003, 001; an empty
response raises `IOError`; otherwise the raw response is returned.
-/

/-- `re.search(rb'ERR\s*CODE', s)` succeeding at the head of `s`: the literal
bytes `ERR` followed by any run of whitespace followed by `code`.  (The greedy
`\s*` is equivalent to skipping the whole whitespace run because the code
digits are not whitespace.) -/
def errMatchAt (code s : List Nat) : Bool :=
  startsWith (strBytes "ERR") s && startsWith code ((s.drop 3).dropWhile isWSByte)

/-- `re.search` over the whole response: does `ERR\s*code` match anywhere? -/
def errSearch (code : List Nat) : List Nat → Bool
  | [] => false
  | b :: rest => errMatchAt code (b :: rest) || errSearch code rest

/-- Result of `KramerP3000.__try_cmd`: a recognized error, an `IOError` on an
empty response, or the raw response bytes. -/
inductive P3000Reply
  | ioEmpty
  | unavailable
  | outOfRange
  | synErr
  | raw (resp : List Nat)
deriving DecidableEq, Repr

/-- `KramerP3000.__try_cmd` response classification (lines 278-287): empty
response raises `IOError`; then `ERR\s*002`, `ERR\s*003`, `ERR\s*001` are
searched in that order; otherwise the whole response is returned. -/
def tryCmd (response : List Nat) : P3000Reply :=
  if response.isEmpty then .ioEmpty
  else if errSearch (strBytes "002") response then .unavailable
  else if errSearch (strBytes "003") response then .outOfRange
  else if errSearch (strBytes "001") response then .synErr
  else .raw response

/-- Outcome of the fallback loop in `KramerP3000.select_input`.  `ok` carries
the successful raw response; `noResult` models the Python `for` loop falling
through with no `return`, i.e. `select_input` returning `None`. -/
inductive FallbackOutcome
  | ok (resp : List Nat)
  | errComm
  | errOutOfRange
  | errSyn
  | errUnknown (resp : List Nat)
  | noResult
deriving DecidableEq, Repr

/-- The fallback executor of `KramerP3000.select_input` (lines 322-338): walk
the candidate commands in order, each paired with the response the device
gives it; on `CMD_UNAVAILABLE` continue with the next candidate, on any other
classification stop at once (`PARAM_OUT_OF_RANGE` raises `ValueError`,
`SYNTAX` raises `SyntaxError`, a remaining response containing `ERR` raises a
generic `Exception`, anything else is success).  Returns the outcome together
with the list of commands issued, in order. -/
def execFallback : List (List Nat × List Nat) → FallbackOutcome × List (List Nat)
  | [] => (.noResult, [])
  | (cmd, response) :: rest =>
    match tryCmd response with
    | .ioEmpty => (.errComm, [cmd])
    | .unavailable => ((execFallback rest).1, cmd :: (execFallback rest).2)
    | .outOfRange => (.errOutOfRange, [cmd])
    | .synErr => (.errSyn, [cmd])
    | .raw resp =>
      if hasSub (strBytes "ERR") resp then (.errUnknown resp, [cmd])
      else (.ok resp, [cmd])

/-- The `try_in_order` probe of `KramerP3000.select_input` for input value `2`
routed to the default output `*`: `#ROUTE`, then `#AV`, then `#VID`. -/
def p3000SelectPlan : List (List Nat) :=
  [strBytes "#ROUTE 1,*,2\r", strBytes "#AV 2>*\r", strBytes "#VID 2>*\r"]

/-- A synthetic Protocol 3000 error response carrying the given code bytes. -/
def mkErrResponse (code : List Nat) : List Nat :=
  strBytes "~01@ERR " ++ code ++ [13, 10]

/-!
## NEC projector codec (`avctls/drivers/projector/nec.py`)
-/

/-- `NEC.__checksum` (lines 375-386): one-byte checksum of a byte string,
`sum(i for i in vals) & 0xFF`, i.e. the sum reduced mod 256. -/
def necChecksum (vals : List Nat) : Nat :=
  vals.sum % 256

/-- Frame construction in `NEC.__cmd` (lines 405-415) for a parameterized,
checksummed command: the opcode bytes, then the parameter bytes, then the
one-byte checksum of everything before it. -/
def necEncodeChecksummed (opcode params : List Nat) : List Nat :=
  let cmdBytes := opcode ++ params
  cmdBytes ++ [necChecksum cmdBytes]

/-- `utils.byteops.Byte.high_nibble_char` yields `hex(b >> 4)[2:]`; for a
single hex digit `n` this is the character code of `hex(n)[2:]`:
`'0'..'9'` (48..57) below ten, `'a'..'f'` (97..102) from ten. -/
def hexDigitCode (n : Nat) : Nat :=
  if n < 10 then 48 + n else 87 + n

/-- Decode result of `NEC.__cmd`: either the two error-code bytes
(`tuple(result[5:7])`) or the entire response. -/
inductive NECDecode
  | err (code : List Nat)
  | ok (resp : List Nat)
deriving DecidableEq, Repr

/-- Response handling in `NEC.__cmd` (lines 432-439):
`Byte(result[0]).high_nibble_char == 'a'` selects the error path, which
returns the byte pair `result[5:7]`; every other response is returned whole.
An empty response crashes (`result[0]` raises `IndexError`), modelled as
`none`. -/
def necDecode (result : List Nat) : Option NECDecode :=
  match result with
  | [] => none
  | b0 :: _ =>
    if hexDigitCode (b0 / 16) == 97 then some (.err ((result.drop 5).take 2))
    else some (.ok result)

/-!
## Kramer VP-734 notification parsing (`avctls/drivers/switcher/kramervp734.py`)
-/

/-- The cached device state: `_power_status`, `_input_status` (stored here as
the numeric input code the `Input` enum member wraps), `_av_mute`.  All start
as `None`. -/
structure VP734State where
  power : Option Bool
  inputCode : Option Int
  avMute : Option Bool
deriving DecidableEq, Repr

/-- The all-`None` state set up in `KramerVP734.__init__`. -/
def vp734Init : VP734State :=
  { power := none, inputCode := none, avMute := none }

/-- Keys of the `KramerVP734.functions` dict (only membership matters to
control flow; the values are log format strings). -/
def vp734FuncKeys : List Int :=
  [0, 1, 2, 3, 4, 5, 6, 7, 8, 9, 10, 11, 14, 30, 31, 32, 33,
   40, 41, 42, 43, 44, 45, 60, 61, 62, 63, 64, 65, 66, 67,
   80, 81, 82, 83, 84, 85, 86, 87, 88, 89, 90, 91,
   130, 131, 132, 133, 134, 135, 136, 137, 138, 139,
   170, 171, 172, 173, 174, 175, 176, 177, 180, 181, 182, 183, 184,
   190, 191, 192, 193, 194, 200, 201, 202, 203, 230, 231,
   240, 241, 242, 243, 244, 250, 251, 262, 450, 451]

/-- Inner keys of each entry of the `KramerVP734.data` dict: `data[func]` maps
a parameter value to its display string; only key membership
(`param in self.data[func]`) affects state updates.  Entry 177 is the
two-position special case whose outer keys are the positions 3 and 4. -/
def vp734DataKeys : List (Int × List Int) :=
  [(6, [0, 1, 2]), (7, [0, 1]), (8, [0, 1]), (9, [0, 1]), (10, [0, 1]),
   (11, [0, 1]), (14, [0, 1, 2]), (30, [0, 1, 2, 3, 4, 5, 6]), (31, [0, 1]),
   (32, [0, 1, 2, 3]), (33, [0, 1, 2, 3]), (40, [0, 1, 2]),
   (41, [0, 1, 2, 3, 4, 5, 6, 7]), (65, [0, 1, 2, 3]), (66, [0, 1, 2, 3]),
   (67, [0, 1]),
   (80, (List.range 29).map Int.ofNat
        ++ (List.range 15).map (fun n => Int.ofNat (100 + n))
        ++ [150, 151, 152, 154]),
   (81, [0, 1, 2]), (82, [0, 1, 2, 3, 4, 5]),
   (87, (List.range 12).map Int.ofNat),
   (91, (List.range 9).map Int.ofNat),
   (135, [0, 1]), (136, [0, 1, 2]), (138, [0, 1, 2, 3, 5, 6, 7, 8]),
   (139, [0, 1]),
   (170, (List.range 9).map Int.ofNat), (171, (List.range 9).map Int.ofNat),
   (172, (List.range 9).map Int.ofNat),
   (173, [0, 1]), (174, [0, 1]), (175, [0, 1]), (176, [0, 1]),
   (177, [3, 4]),
   (180, [0, 1]), (181, [0, 1]), (182, [0, 1]), (183, [0, 1]), (184, [0, 1]),
   (190, [0, 1]), (191, [0, 1]), (192, [0, 1]), (193, [0, 1]), (194, [0, 1]),
   (200, [0, 1]), (240, [0, 1]), (241, [0, 1]), (242, [0, 1, 2]),
   (243, [0, 1]), (244, [0, 1]),
   (250, (List.range 5).map Int.ofNat), (251, (List.range 7).map Int.ofNat),
   (262, [0, 1]),
   (450, (List.range 48).map Int.ofNat
        ++ [100, 101, 102, 103]
        ++ (List.range 11).map (fun n => Int.ofNat (150 + n))
        ++ (List.range 7).map (fun n => Int.ofNat (200 + n))
        ++ [250, 251])]

/-- `data[func]` inner-key lookup; `none` when `func not in self.data`. -/
def vp734DataOf (f : Int) : Option (List Int) :=
  (vp734DataKeys.find? (fun p => p.1 == f)).map Prod.snd

/-- Keys the special-case `data[177][3]` dict accepts (priority positions). -/
def vp734Data177pos3 : List Int := [0, 1, 2, 3, 4, 5, 6]

/-- Keys the special-case `data[177][4]` dict accepts (input choices). -/
def vp734Data177pos4 : List Int := [0, 1, 2, 3, 4, 5, 6, 7]

/-- `KramerVP734.parse` (lines 491-598) over the character codes of the
message.  State changes: function 8 sets `_av_mute = bool(param)`, function 10
sets `_power_status = bool(param)`, function 30 sets
`_input_status = self.inputs(param)` (with the default input map the enum
member for code `param`); the bare message `-` sets `_power_status = True`.
`none` models an uncaught exception: `int()` raising `ValueError` on a
non-numeric token, or the function-177 path raising `KeyError` on a parameter
outside `data[177][3]`/`data[177][4]`. -/
def vp734Parse (data : List Nat) (s : VP734State) : Option VP734State :=
  if data.any (fun c => c == 58) then some s
  else if hasSub (strBytes "VTR") data then some s
  else
    let dataParts := splitWS data
    if dataParts.length > 2 then
      match pyInt (dataParts.getD 2 []) with
      | none => none
      | some f =>
        if vp734FuncKeys.contains f then
          if dataParts.length > 3 then
            if dataParts.length == 7 then some s
            else
              match pyInt (dataParts.getD 3 []) with
              | none => none
              | some p =>
                if dataParts.length > 4 && f == 177 then
                  match pyInt (dataParts.getD 4 []) with
                  | none => none
                  | some p2 =>
                    if vp734Data177pos3.contains p && vp734Data177pos4.contains p2
                    then some s
                    else none
                else
                  match vp734DataOf f with
                  | some keys =>
                    if keys.contains p then
                      if f == 8 then some { s with avMute := some (p != 0) }
                      else if f == 10 then some { s with power := some (p != 0) }
                      else if f == 30 then some { s with inputCode := some p }
                      else some s
                    else some s
                  | none => some s
          else some s
        else some s
    else if dataParts.length == 1 && dataParts.getD 0 [] == [45] then
      some { s with power := some true }
    else some s

/-- Python `data.split(b'\r\n>')`: cut at each occurrence of the terminator,
keeping empty pieces (so a chunk ending in the terminator yields a trailing
empty piece, and a chunk with no terminator yields itself whole). -/
def splitTerm : List Nat → List (List Nat)
  | 13 :: 10 :: 62 :: rest => [] :: splitTerm rest
  | c :: rest =>
    match splitTerm rest with
    | [] => [[c]]
    | t :: ts => (c :: t) :: ts
  | [] => [[]]

/-- The classification loop of `KramerVP734.read_response` (lines 467-489)
over the pieces of one received chunk: a piece is handed to `parse` when it
starts with `Z`, equals `-`, or splits into more than three whitespace tokens
whose third token is `30`; every other piece is dropped.  Returns the updated
state and how many pieces were handed to `parse`; `none` propagates a `parse`
crash. -/
def vp734Classify (s : VP734State) : List (List Nat) → Option (VP734State × Nat)
  | [] => some (s, 0)
  | response :: rest =>
    let responseParts := splitWS response
    if startsWith [90] response || response == [45] then
      match vp734Parse response s with
      | none => none
      | some s' => (vp734Classify s' rest).map (fun r => (r.1, r.2 + 1))
    else if responseParts.length > 3 && responseParts.getD 2 [] == strBytes "30" then
      match vp734Parse response s with
      | none => none
      | some s' => (vp734Classify s' rest).map (fun r => (r.1, r.2 + 1))
    else vp734Classify s rest

/-- `KramerVP734.read_response` (lines 460-489) on one chunk returned by
`recv`: split the chunk on `\r\n>` and classify each resulting piece.  No
bytes are carried over to the next read. -/
def vp734ReadResponse (s : VP734State) (data : List Nat) : Option (VP734State × Nat) :=
  vp734Classify s (splitTerm data)

/-- Several consecutive read events, each processing one chunk with
`read_response`, accumulating the state and the total number of pieces handed
to `parse`. -/
def vp734ReadChunks (s : VP734State) : List (List Nat) → Option (VP734State × Nat)
  | [] => some (s, 0)
  | d :: rest =>
    match vp734ReadResponse s d with
    | none => none
    | some (s', n) =>
      match vp734ReadChunks s' rest with
      | none => none
      | some (s'', m) => some (s'', n + m)

/-!
## PJLink projector driver (`avctls/drivers/projector/pjlink.py`)
-/

/-- `PJLink._default_inputs`: input names mapped to the 2-byte input codes. -/
def pjlinkDefaultInputs : List (String × List Nat) :=
  [("RGB_1", strBytes "11"), ("RGB_2", strBytes "12"), ("RGB_3", strBytes "13"),
   ("VIDEO_1", strBytes "21"), ("VIDEO_2", strBytes "22"), ("VIDEO_3", strBytes "23"),
   ("DIGITAL_1", strBytes "31"), ("DIGITAL_2", strBytes "32"), ("DIGITAL_3", strBytes "33"),
   ("STORAGE_1", strBytes "41"), ("STORAGE_2", strBytes "42"),
   ("NETWORK", strBytes "51")]

/-- `utils.key_for_value`: the first key of the mapping whose value equals
`v` (`None` impossible at the call sites, which guard with a membership
test first). -/
def keyForValue : List (String × List Nat) → List Nat → Option String
  | [], _ => none
  | (k, val) :: rest, v => if val == v then some k else keyForValue rest v

/-- The error scan of `PJLink.__cmd` (lines 242-251): a nonempty result
containing `ERR1`/`ERR2`/`ERR3`/`ERR4` raises the corresponding exception. -/
def pjlinkCmdErrCheck (result : List Nat) : Bool :=
  hasSub (strBytes "ERR1") result || hasSub (strBytes "ERR2") result ||
  hasSub (strBytes "ERR3") result || hasSub (strBytes "ERR4") result

/-- `PJLink.get_input_status` (lines 349-366) applied to the raw `__cmd`
result.  Outer `none` models the exception path (`__cmd` raised on an `ERRn`
token); `some none` is the implicit `None` returned when the reported code
`result[7:].rstrip()` is not among the configured input values; `some (some
name)` is the configured name looked up by `key_for_value`.  The driver is
modelled with its default input map (`inputs=None` at construction). -/
def pjlinkGetInputStatus (result : List Nat) : Option (Option String) :=
  if pjlinkCmdErrCheck result then none
  else
    let data := pyRstrip (result.drop 7)
    if (pjlinkDefaultInputs.map Prod.snd).contains data then
      some (keyForValue pjlinkDefaultInputs data)
    else
      some none

/-- Outcome of `PJLink.get_power_status`: a power-state string, or the
`DeviceNotReadyError` deliberately raised while cooling/warming. -/
inductive PJLinkPowerOutcome
  | powerState (name : String)
  | notReady
deriving DecidableEq, Repr

/-- `PJLink.power_state`: the response-digit-to-state table. -/
def pjlinkPowerTable : List (Int × String) :=
  [(0, "Standby"), (1, "Power on"), (2, "Cooling"), (3, "Warming up")]

/-- The response handling of `PJLink.get_power_status` (lines 305-322):
`data = int(result[7:].rstrip())`, looked up in `power_state`; "cooling" or
"warming" states raise `DeviceNotReadyError`.  `none` models an uncaught
crash: `int()` raising `ValueError` on a non-numeric or empty slice, or the
dict lookup raising `KeyError` on an out-of-table code. -/
def pjlinkPowerParse (result : List Nat) : Option PJLinkPowerOutcome :=
  match pyInt (pyRstrip (result.drop 7)) with
  | none => none
  | some d =>
    match (pjlinkPowerTable.find? (fun p => p.1 == d)).map Prod.snd with
    | none => none
    | some name =>
      if name == "Cooling" || name == "Warming up" then some .notReady
      else some (.powerState name)

/-!
## Blocking model of `KramerP3000.Comms.recv` (lines 113-145)

Over TCP, `recv` first calls `select.select(in_socks, [], [])` — the comment
in the source reads "select called here without a timeout, so recv() blocks
until there is input available".  We model the availability of input as a
Boolean trace over discrete waiting time; the call returns by time `t`
exactly when input became available at some instant up to `t`.
-/

/-- Has the blocking `select`-based `recv` returned by time `t`, given the
input-availability trace `avail`?  With no timeout passed to `select`, the
call completes exactly when input has become available. -/
def p3000RecvReturnsBy (avail : Nat → Bool) (t : Nat) : Bool :=
  (List.range (t + 1)).any avail

/-!
## Helper lemmas
-/

/-- Replacing one element relates the two list sums linearly. -/
theorem sum_set_get_add (l : List Nat) :
    ∀ (i : Nat) (h : i < l.length) (b : Nat),
      (l.set i b).sum + l[i] = l.sum + b := by
  induction l with
  | nil => intro i h b; simp at h
  | cons a t ih =>
    intro i h b
    cases i with
    | zero => simp [List.set]; omega
    | succ j =>
      have hj : j < t.length := by simpa using h
      have hrec := ih j hj b
      simp only [List.set, List.sum_cons, List.getElem_cons_succ]
      omega

/-- A successful `ERR\s*code` search implies the literal `ERR` occurs in the
response. -/
theorem errSearch_imp_hasSub (code : List Nat) :
    ∀ s : List Nat, errSearch code s = true → hasSub (strBytes "ERR") s = true := by
  intro s
  induction s with
  | nil => simp [errSearch]
  | cons b rest ih =>
    intro h
    simp only [errSearch, Bool.or_eq_true] at h
    rcases h with h | h
    · simp only [errMatchAt, Bool.and_eq_true] at h
      simp [hasSub, h.1]
    · simp [hasSub, ih h]

/-- C2: for every NEC checksummed command with parameters, the encoded frame
is opcode bytes, then parameter bytes, then one checksum byte equal to the
byte sum mod 256; and corrupting any single non-checksum byte of the frame
(to a different byte value) changes the checksum. -/
theorem nec_checksummed_frame_correct :
    (∀ opcode params : List Nat,
       necEncodeChecksummed opcode params
         = opcode ++ params ++ [(opcode ++ params).sum % 256]) ∧
    (∀ (l : List Nat) (i : Nat) (h : i < l.length) (b : Nat),
       (∀ x ∈ l, x < 256) → b < 256 → b ≠ l[i] →
       necChecksum (l.set i b) ≠ necChecksum l) := by
  constructor
  · intro opcode params
    rfl
  · intro l i h b hall hb hne heq
    have hs := sum_set_get_add l i h b
    have hmem : l[i] ∈ l := List.getElem_mem h
    have hi : l[i] < 256 := hall _ hmem
    unfold necChecksum at heq
    omega

/-- Witness for C2: the `[018. INPUT SW CHANGE]` frame for input `0x1a`;
corrupting byte 5 (the `0x01`) to `0x07` changes the checksum. -/
theorem nec_checksummed_frame_correct_witness :
    (5 < ([2, 3, 0, 0, 2, 1, 26] : List Nat).length) ∧
      necChecksum (([2, 3, 0, 0, 2, 1, 26] : List Nat).set 5 7)
        ≠ necChecksum ([2, 3, 0, 0, 2, 1, 26] : List Nat) :=
  ⟨by decide,
   nec_checksummed_frame_correct.2 [2, 3, 0, 0, 2, 1, 26] 5 (by decide) 7
     (by decide) (by decide) (by decide)⟩

/-- C1: the fallback executor issues the next candidate iff the previous
candidate classified as `CMD_UNAVAILABLE`, and stops at once on any other
classification; a plan whose first candidate answers `ERR 003` issues exactly
one command and surfaces the out-of-range error; the `#ROUTE`/`#AV`/`#VID`
probe with two `ERR 002` answers and then a clean answer issues all three
commands in order and returns the success response. -/
theorem p3000_fallback_policy :
    (∀ (c r : List Nat) (rest : List (List Nat × List Nat)),
       tryCmd r = .unavailable →
         execFallback ((c, r) :: rest)
           = ((execFallback rest).1, c :: (execFallback rest).2)) ∧
    (∀ (c r : List Nat) (rest : List (List Nat × List Nat)),
       tryCmd r ≠ .unavailable →
         (execFallback ((c, r) :: rest)).2 = [c]) ∧
    execFallback [(strBytes "#ROUTE 1,*,2\r", mkErrResponse (strBytes "003"))]
      = (.errOutOfRange, [strBytes "#ROUTE 1,*,2\r"]) ∧
    execFallback
        (p3000SelectPlan.zip
          [mkErrResponse (strBytes "002"), mkErrResponse (strBytes "002"),
           strBytes "~01@VID 2>1\r\n"])
      = (.ok (strBytes "~01@VID 2>1\r\n"), p3000SelectPlan) := by
  refine ⟨?_, ?_, by decide, by decide⟩
  · intro c r rest h
    simp [execFallback, h]
  · intro c r rest h
    cases htc : tryCmd r with
    | unavailable => exact absurd htc h
    | ioEmpty => simp [execFallback, htc]
    | outOfRange => simp [execFallback, htc]
    | synErr => simp [execFallback, htc]
    | raw resp =>
      simp only [execFallback, htc]
      split <;> rfl

/-- Witness for C1: the continuation rule applied at an `ERR 002` response
with one candidate remaining. -/
theorem p3000_fallback_policy_witness :
    tryCmd (mkErrResponse (strBytes "002")) = .unavailable ∧
      execFallback [(strBytes "#AV 2>*\r", mkErrResponse (strBytes "002"))]
        = ((execFallback []).1, strBytes "#AV 2>*\r" :: (execFallback []).2) :=
  ⟨by decide,
   p3000_fallback_policy.1 (strBytes "#AV 2>*\r") (mkErrResponse (strBytes "002")) []
     (by decide)⟩

/-- C7: the Protocol 3000 decode maps `ERR 001` to the syntax error, `ERR 002`
to command-unavailable, `ERR 003` to parameter-out-of-range; a synthetic
response with any other three-digit code classifies as the unknown-error
outcome of `select_input`; and a nonempty response containing no `ERR` token
decodes as success carrying the response bytes. -/
theorem p3000_err_code_table :
    tryCmd (mkErrResponse (strBytes "001")) = .synErr ∧
    tryCmd (mkErrResponse (strBytes "002")) = .unavailable ∧
    tryCmd (mkErrResponse (strBytes "003")) = .outOfRange ∧
    (∀ a b c : Fin 10,
       ¬(a.val = 0 ∧ b.val = 0 ∧ c.val = 1) →
       ¬(a.val = 0 ∧ b.val = 0 ∧ c.val = 2) →
       ¬(a.val = 0 ∧ b.val = 0 ∧ c.val = 3) →
       (execFallback
           [([], mkErrResponse [48 + a.val, 48 + b.val, 48 + c.val])]).1
         = .errUnknown (mkErrResponse [48 + a.val, 48 + b.val, 48 + c.val])) ∧
    (∀ resp : List Nat, resp ≠ [] → hasSub (strBytes "ERR") resp = false →
       tryCmd resp = .raw resp ∧ (execFallback [([], resp)]).1 = .ok resp) := by
  refine ⟨by decide, by decide, by decide, by decide, ?_⟩
  intro resp hne hnosub
  have hf : ∀ code : List Nat, errSearch code resp = false := by
    intro code
    rcases Bool.eq_false_or_eq_true (errSearch code resp) with h | h
    · exact absurd (errSearch_imp_hasSub code resp h) (by simp [hnosub])
    · exact h
  have hemp : resp.isEmpty = false := by
    cases resp with
    | nil => exact absurd rfl hne
    | cons x xs => rfl
  have htc : tryCmd resp = .raw resp := by
    simp [tryCmd, hemp, hf]
  refine ⟨htc, ?_⟩
  simp [execFallback, htc, hnosub]

/-- Witness for C7: an untabulated code `005` classifies as the unknown-error
outcome, and an `ERR`-free routing response decodes as success. -/
theorem p3000_err_code_table_witness :
    (execFallback [([], mkErrResponse [48 + 0, 48 + 0, 48 + 5])]).1
        = .errUnknown (mkErrResponse [48 + 0, 48 + 0, 48 + 5]) ∧
      (tryCmd (strBytes "~01@VID 1>1\r\n") = .raw (strBytes "~01@VID 1>1\r\n") ∧
        (execFallback [([], strBytes "~01@VID 1>1\r\n")]).1
          = .ok (strBytes "~01@VID 1>1\r\n")) :=
  ⟨p3000_err_code_table.2.2.2.1 0 0 5 (by decide) (by decide) (by decide),
   p3000_err_code_table.2.2.2.2 (strBytes "~01@VID 1>1\r\n") (by decide) (by decide)⟩

/-- C8 counterexample: with the `#ROUTE`/`#AV`/`#VID` probe answered by
`ERR 002` three times, `select_input`'s loop falls through and the call
returns `None` — not an Unsupported-classified outcome naming the last
command, contradicting the claim. -/
theorem p3000_exhausted_plan_counterexample :
    execFallback
        (p3000SelectPlan.zip
          [mkErrResponse (strBytes "002"), mkErrResponse (strBytes "002"),
           mkErrResponse (strBytes "002")])
      = (.noResult, p3000SelectPlan) := by decide

/-- C8 (amended): when every candidate of the plan classifies as
`CMD_UNAVAILABLE`, every command of the plan is issued in order and the call
returns `None` (no outcome at all). -/
theorem p3000_exhausted_plan_returns_none :
    ∀ plan : List (List Nat × List Nat),
      (∀ p ∈ plan, tryCmd p.2 = .unavailable) →
      execFallback plan = (.noResult, plan.map Prod.fst) := by
  intro plan
  induction plan with
  | nil => intro h; rfl
  | cons hd tl ih =>
    intro h
    obtain ⟨c, r⟩ := hd
    have h1 : tryCmd r = .unavailable := h (c, r) (List.mem_cons_self _ _)
    have h2 := ih (fun p hp => h p (List.mem_cons_of_mem _ hp))
    simp [execFallback, h1, h2]

/-- Witness for the amended C8 at a one-candidate plan. -/
theorem p3000_exhausted_plan_returns_none_witness :
    (∀ p ∈ [(strBytes "#VID 2>*\r", mkErrResponse (strBytes "002"))],
       tryCmd p.2 = P3000Reply.unavailable) ∧
      execFallback [(strBytes "#VID 2>*\r", mkErrResponse (strBytes "002"))]
        = (.noResult, [strBytes "#VID 2>*\r"]) :=
  ⟨by decide, p3000_exhausted_plan_returns_none _ (by decide)⟩

/-- C3 counterexample: a response whose first byte is `0x30` (high nibble 3,
neither `0x2` nor `0xA`) is returned whole as a success payload by
`NEC.__cmd`; it is not classified as an Unknown error, contradicting the
claim that any other high nibble yields `ErrorClass` Unknown. -/
theorem nec_decode_other_nibble_counterexample :
    necDecode [48, 0, 0, 0, 0, 2, 13] = some (.ok [48, 0, 0, 0, 0, 2, 13]) := by
  decide

/-- C3 (amended): `NEC.__cmd` classifies only by whether the first byte's
high nibble is `0xA`: in that case it returns the error-code byte pair
`result[5:7]`; for every other high nibble — `0x2` or not — the entire
response is returned as success. -/
theorem nec_decode_classification :
    ∀ (b0 : Nat) (rest : List Nat),
      necDecode (b0 :: rest)
        = if b0 / 16 = 10 then some (.err (((b0 :: rest).drop 5).take 2))
          else some (.ok (b0 :: rest)) := by
  intro b0 rest
  by_cases hq : b0 / 16 = 10
  · simp [necDecode, hexDigitCode, hq]
  · have hne : (hexDigitCode (b0 / 16) == 97) = false := by
      unfold hexDigitCode
      split
      · rw [beq_eq_false_iff_ne]
        omega
      · rw [beq_eq_false_iff_ne]
        omega
    simp [necDecode, hne, hq]

/-- C4: each of the three decode steps can crash on garbage or truncated
input instead of yielding an Unknown-classified outcome: the VP-734
`read_response`/`parse` raises `ValueError` at `int('x')` on the garbage
message `Z 0 x`, `NEC.__cmd` raises `IndexError` at `result[0]` on an empty
response, and `PJLink.get_power_status` raises `ValueError` at `int()` on a
response without a numeric field. -/
theorem decode_crash_on_garbage :
    vp734ReadResponse vp734Init (strBytes "Z 0 x\r\n>") = none ∧
      necDecode [] = none ∧
      pjlinkPowerParse (strBytes "junk") = none := by
  refine ⟨by decide, rfl, by decide⟩

/-- C5 counterexample: feeding `"Y 0 30 2\r\n>Z 0 30 2\r\n>"` in the three
chunks `"Y 0 3"`, `"0 2\r\n>Z 0 30 2"`, `"\r\n>"` hands exactly one piece
(not two) to `parse` — the echo's fragments are dropped, no tail is buffered
across reads; and the first complete message `"Y 0 30 2"`, fed alone, is not
discarded: it is parsed and sets the cached input to code 2. -/
theorem vp734_chunking_counterexample :
    vp734ReadChunks vp734Init
        [strBytes "Y 0 3", strBytes "0 2\r\n>Z 0 30 2", strBytes "\r\n>"]
      = some ({ power := none, inputCode := some 2, avMute := none }, 1) ∧
      vp734ReadResponse vp734Init (strBytes "Y 0 30 2\r\n>")
        = some ({ power := none, inputCode := some 2, avMute := none }, 1) := by
  refine ⟨by decide, by decide⟩

/-- C5 (amended): `read_response` keeps no buffer across reads; each chunk is
split on `\r\n>` and every piece — complete or not — is classified when it
starts with `Z`, equals `-`, or has more than three whitespace tokens with
the third equal to `30`.  On the terminator-aligned split of the stream
`"Y 0 30 2\r\n>" + "Z 0 30 2\r\n>"` exactly two pieces are handed to
`parse`, and the first — the `Y 0 30 2` command echo — is not discarded: it
already updates the cached input to the code-2 input, as does the second. -/
theorem vp734_chunking_aligned :
    vp734ReadChunks vp734Init
        [strBytes "Y 0 30 2\r\n>", strBytes "Z 0 30 2\r\n>", strBytes ""]
      = some ({ power := none, inputCode := some 2, avMute := none }, 2) ∧
      vp734ReadChunks vp734Init [strBytes "Y 0 30 2\r\n>"]
        = some ({ power := none, inputCode := some 2, avMute := none }, 1) := by
  refine ⟨by decide, by decide⟩

/-- C6: a complete classified message consisting of the bare literal `-`
always sets the cached power state to `True`, whatever it was before —
never to `False` or back to unknown. -/
theorem vp734_dash_sets_power_on :
    ∀ s : VP734State,
      vp734Parse (strBytes "-") s = some { s with power := some true } ∧
      vp734ReadResponse s (strBytes "-\r\n>")
        = some ({ s with power := some true }, 1) := by
  intro s
  exact ⟨rfl, rfl⟩

/-- C9 counterexample: the TCP receive path of `KramerP3000.Comms.recv` calls
`select.select` with no timeout; on a run where input never becomes
available there is no time bound by which the call has returned — it blocks
indefinitely, contradicting the claim that every blocking operation carries
a finite timeout bound. -/
theorem p3000_recv_no_timeout_counterexample :
    ¬ ∃ T : Nat, p3000RecvReturnsBy (fun _ => false) T = true := by
  rintro ⟨T, hT⟩
  simp [p3000RecvReturnsBy] at hT

/-- C9 (amended): the `select`-based TCP receive of `KramerP3000.Comms.recv`
returns by time `t` exactly when input became available at some instant up
to `t`; it carries no timeout of its own. -/
theorem p3000_recv_returns_iff_input_available :
    ∀ (avail : Nat → Bool) (t : Nat),
      p3000RecvReturnsBy avail t = true ↔ ∃ k, k ≤ t ∧ avail k = true := by
  intro avail t
  simp [p3000RecvReturnsBy, List.any_eq_true, List.mem_range, Nat.lt_succ_iff]

/-- `key_for_value` finds a key exactly when the value occurs in the map. -/
theorem keyForValue_isSome_iff :
    ∀ (m : List (String × List Nat)) (v : List Nat),
      (∃ k, keyForValue m v = some k) ↔ v ∈ m.map Prod.snd := by
  intro m v
  induction m with
  | nil => simp [keyForValue]
  | cons hd tl ih =>
    obtain ⟨k0, v0⟩ := hd
    simp only [keyForValue, List.map_cons, List.mem_cons]
    by_cases h : v0 = v
    · subst h
      simp
    · simp [h, ih, Ne.symm h]

/-- C10: whenever the device answer carries no `ERRn` token,
`PJLink.get_input_status` never raises — and it returns an input name
exactly when the reported code `result[7:].rstrip()` occurs among the
configured input values, returning `None` otherwise. -/
theorem pjlink_input_status_lookup :
    ∀ result : List Nat, pjlinkCmdErrCheck result = false →
      pjlinkGetInputStatus result ≠ none ∧
      ((∃ name, pjlinkGetInputStatus result = some (some name)) ↔
        pyRstrip (result.drop 7) ∈ pjlinkDefaultInputs.map Prod.snd) := by
  intro result h
  unfold pjlinkGetInputStatus
  simp only [h, Bool.false_eq_true, if_false]
  by_cases hc : (pjlinkDefaultInputs.map Prod.snd).contains (pyRstrip (result.drop 7)) = true
  · have hmem : pyRstrip (result.drop 7) ∈ pjlinkDefaultInputs.map Prod.snd := by
      simpa using hc
    simp only [hc, if_true]
    refine ⟨by simp, ?_⟩
    constructor
    · intro _
      exact hmem
    · intro _
      obtain ⟨k, hk⟩ := (keyForValue_isSome_iff pjlinkDefaultInputs _).mpr hmem
      exact ⟨k, by simp [hk]⟩
  · have hmem : pyRstrip (result.drop 7) ∉ pjlinkDefaultInputs.map Prod.snd := by
      simpa using hc
    simp only [hc, if_false]
    refine ⟨by simp, ?_⟩
    constructor
    · rintro ⟨name, hname⟩
      simp at hname
    · intro hm
      exact absurd hm hmem

/-- Witness for C10: the answer `%1INPT=99\r` reports code `99`, absent from
the default input map; the driver returns `None` without raising. -/
theorem pjlink_input_status_lookup_witness :
    pjlinkCmdErrCheck (strBytes "%1INPT=99\r") = false ∧
      (pjlinkGetInputStatus (strBytes "%1INPT=99\r") ≠ none ∧
       ((∃ name, pjlinkGetInputStatus (strBytes "%1INPT=99\r") = some (some name)) ↔
         pyRstrip ((strBytes "%1INPT=99\r").drop 7) ∈ pjlinkDefaultInputs.map Prod.snd)) :=
  ⟨by decide, pjlink_input_status_lookup (strBytes "%1INPT=99\r") (by decide)⟩
